import Mathlib

/-!
Shallow embedding of `packages/ef-runtime-client/src/EFRuntime/EFRuntime.ts`.

The source file holds two near-duplicate variants of the `EFRuntime` class,
separated in the repository file; we embed both:
- variant 1: `init` also initialises the module loader, `loadAll` issues a
  fire-and-forget pass before a `Promise.allSettled` pass, `load` treats the
  registry value as a single combined URL and appends "/js" for the module
  loader;
- variant 2: `init` only fetches, `loadAll` wraps each `load` in a `.catch`
  and awaits `Promise.all`, `load` validates a two-field
  `js`/`css` record before handing the URLs to the collaborators.

External collaborators (registry, module loader, styling handler, ambient
storage, logging) are modelled as oracles (`Behavior`, `Reg1`, `Reg2`,
`Store`); every call the orchestrator makes on a collaborator is recorded as
an `Event`, and each routine returns its trace of calls together with its
outcome (`Except.ok` = the promise resolves, `Except.error` = it rejects).
-/

/-- Asset record of a component in variant 2: `js` and `css` may each be
`null` (modelled `none`); the empty string is also falsy in the
`!js` / `!css` checks of the source. -/
structure UrlInfo where
  js : Option String
  css : Option String
deriving DecidableEq

/-- A resolved component module: which lifecycle capabilities it exposes,
and whether each invocation rejects (`some` error message) or resolves. -/
structure ComponentModule where
  hasInit : Bool := false
  hasMount : Bool := false
  initErr : Option String := none
  mountErr : Option String := none
deriving DecidableEq

/-- One observable call made by the orchestrator on a collaborator.
`readStorage` exists so that "the persisted storage is read" is statable;
no routine of the source emits it. -/
inductive Event where
  | moduleLoaderInit : Event
  | registryFetch (systemCode : String) : Event
  | applyOverrides : Event
  | readStorage (key : String) : Event
  | loadStart (component : String) : Event
  | addStyling (url : String) : Event
  | importModule (url : String) : Event
  | createModuleScript (url : String) : Event
  | invokeInit (m : ComponentModule) : Event
  | invokeMount (m : ComponentModule) : Event
  | logError (msg : String) : Event
deriving DecidableEq

/-- Oracle for the outcomes of the external collaborators: for each call the
orchestrator may make, whether it throws/rejects and with what, or what it
returns. -/
structure Behavior where
  moduleLoaderInitResult : Except String Unit
  fetchResult : String → Except String Unit
  addStylingResult : String → Except String Unit
  importModuleResult : String → Except String ComponentModule
  createModuleScriptResult : String → Except String ComponentModule

/-- The registry view consulted by variant 1: key enumeration
(`Object.keys(registry.getRegistry())`) and per-component combined URL
(`registry.getURL`). -/
structure Reg1 where
  keys : List String
  getURL : String → Option String

/-- The registry view consulted by variant 2: key enumeration and
per-component `js`/`css` record. -/
structure Reg2 where
  keys : List String
  getURL : String → Option UrlInfo

/-- Ambient persisted key-value storage (localStorage). -/
def Store : Type := String → Option String

/-- The `InitOptions` of variant 1 (`overrides` maps names to combined
URLs). -/
structure InitOptions1 where
  systemCode : Option String := none
  overrides : Option (List (String × String)) := none

/-- The `InitOptions` of variant 2 (`overrides` maps names to `js`/`css`
records). -/
structure InitOptions2 where
  systemCode : Option String := none
  overrides : Option (List (String × UrlInfo)) := none

/-- JavaScript falsiness of an optional string: absent/null or empty. -/
def falsyOpt : Option String → Bool
  | none => true
  | some s => s = ""

/-- Source `validateOptions`: both variants throw `Must provide a systemCode
option` when `!options.systemCode`. -/
def validateOptions (systemCode : Option String) : Except String Unit :=
  if falsyOpt systemCode then Except.error "Must provide a systemCode option"
  else Except.ok ()

/-- Source `executeLifecycleMethods` (identical in both variants):
`if (m?.init) await m.init(); if (m?.mount) await m.mount();`.
A rejection of `init` rejects the whole call before `mount` is reached. -/
def executeLifecycleMethods (m : ComponentModule) :
    List Event × Except String Unit :=
  if m.hasInit then
    match m.initErr with
    | some e => ([Event.invokeInit m], Except.error e)
    | none =>
      if m.hasMount then
        ([Event.invokeInit m, Event.invokeMount m],
          match m.mountErr with
          | some e => Except.error e
          | none => Except.ok ())
      else ([Event.invokeInit m], Except.ok ())
  else
    if m.hasMount then
      ([Event.invokeMount m],
        match m.mountErr with
        | some e => Except.error e
        | none => Except.ok ())
    else ([], Except.ok ())

/-- Variant 1 `load`: look up the combined URL; a falsy URL is logged and the
load resolves; otherwise, inside one `try`, apply styling to the URL, import
the module from `url + "/js"`, run the lifecycle; any throw/rejection is
caught and logged, and `load` resolves. -/
def load1 (B : Behavior) (reg : Reg1) (c : String) :
    List Event × Except String Unit :=
  let tr0 := [Event.loadStart c]
  match reg.getURL c with
  | none =>
    (tr0 ++ [Event.logError
      ("Component " ++ c ++ " was not found in the Component Registry")],
      Except.ok ())
  | some url =>
    if url = "" then
      (tr0 ++ [Event.logError
        ("Component " ++ c ++ " was not found in the Component Registry")],
        Except.ok ())
    else
      let trS := tr0 ++ [Event.addStyling url]
      match B.addStylingResult url with
      | Except.error _ =>
        (trS ++ [Event.logError
          ("Error when mounting component " ++ c ++ " using SystemJS")],
          Except.ok ())
      | Except.ok _ =>
        let trI := trS ++ [Event.importModule (url ++ "/js")]
        match B.importModuleResult (url ++ "/js") with
        | Except.error _ =>
          (trI ++ [Event.logError
            ("Error when mounting component " ++ c ++ " using SystemJS")],
            Except.ok ())
        | Except.ok m =>
          let lc := executeLifecycleMethods m
          match lc.2 with
          | Except.error _ =>
            (trI ++ lc.1 ++ [Event.logError
              ("Error when mounting component " ++ c ++ " using SystemJS")],
              Except.ok ())
          | Except.ok _ => (trI ++ lc.1, Except.ok ())

/-- Semantics of `p.catch(err => log(msg, err))`: a rejection is replaced by
a log entry
and a resolved outcome. -/
def catchLog (msg : String) (p : List Event × Except String Unit) :
    List Event × Except String Unit :=
  match p.2 with
  | Except.ok _ => p
  | Except.error _ => (p.1 ++ [Event.logError msg], Except.ok ())

/-- Trace of running one routine per component name, in order. -/
def batchTrace (f : String → List Event × Except String Unit) :
    List String → List Event
  | [] => []
  | c :: tl => (f c).1 ++ batchTrace f tl

/-- Outcomes of running one routine per component name, in order. -/
def batchResults (f : String → List Event × Except String Unit) :
    List String → List (Except String Unit)
  | [] => []
  | c :: tl => (f c).2 :: batchResults f tl

/-- Semantics of `Promise.all`: rejects with the first rejection, otherwise
resolves. -/
def promiseAll : List (Except String Unit) → Except String Unit
  | [] => Except.ok ()
  | Except.error e :: _ => Except.error e
  | Except.ok _ :: tl => promiseAll tl

/-- Variant 1 `loadAll`: a fire-and-forget pass (each `load` with a
`.catch` logging `Failed to initialise and mount c`) over every registry
key, then `Promise.allSettled` over a second full pass; `allSettled` never
rejects. -/
def loadAll1 (B : Behavior) (reg : Reg1) : List Event × Except String Unit :=
  let firstPass := batchTrace
    (fun c => catchLog ("Failed to initialise and mount " ++ c)
      (load1 B reg c)) reg.keys
  let settledPass := batchTrace (fun c => load1 B reg c) reg.keys
  (firstPass ++ settledPass, Except.ok ())

/-- Variant 1 `init`: validate options; start the module loader and the
registry fetch (`Promise.all`, both calls issued, a rejection of either
rejects `init`); apply caller overrides when present; then `loadAll`. The
ambient storage is never consulted. -/
def init1 (B : Behavior) (reg : Reg1) (_store : Store) (opts : InitOptions1) :
    List Event × Except String Unit :=
  match validateOptions opts.systemCode with
  | Except.error e => ([], Except.error e)
  | Except.ok _ =>
    let sc := opts.systemCode.getD ""
    let startEvents := [Event.moduleLoaderInit, Event.registryFetch sc]
    match B.moduleLoaderInitResult with
    | Except.error e => (startEvents, Except.error e)
    | Except.ok _ =>
      match B.fetchResult sc with
      | Except.error e => (startEvents, Except.error e)
      | Except.ok _ =>
        let ovEvents := match opts.overrides with
          | some _ => [Event.applyOverrides]
          | none => []
        let rest := loadAll1 B reg
        (startEvents ++ ovEvents ++ rest.1, rest.2)

/-- The parts missing from a variant-2 asset record, in the deterministic
source order: script (`JS`) first, stylesheet (`CSS`) second. -/
def missingParts (i : UrlInfo) : List String :=
  (if falsyOpt i.js then ["JS"] else []) ++ (if falsyOpt i.css then ["CSS"] else [])

/-- Error message built by the source `isValidURL`: `Missing <parts> URL for
component <c>`. -/
def missingMessage (i : UrlInfo) (c : String) : String :=
  "Missing " ++ String.intercalate " and " (missingParts i) ++
    " URL for component " ++ c

/-- Variant 2 `loadComponent`: `addStyling(css)` is called OUTSIDE the
`try`, so its synchronous throw rejects the call; inside the `try`,
`createModuleScript(js)` is called (a throw is caught and logged) and
`executeLifecycleMethods` is invoked WITHOUT `await`, so its events happen
but its rejection is neither caught, logged, nor propagated. -/
def loadComponent2 (B : Behavior) (js css c : String) :
    List Event × Except String Unit :=
  let trS := [Event.addStyling css]
  match B.addStylingResult css with
  | Except.error e => (trS, Except.error e)
  | Except.ok _ =>
    let trM := trS ++ [Event.createModuleScript js]
    match B.createModuleScriptResult js with
    | Except.error _ =>
      (trM ++ [Event.logError
        ("Failed to load component " ++ c ++ " using SystemJS")],
        Except.ok ())
    | Except.ok m =>
      (trM ++ (executeLifecycleMethods m).1, Except.ok ())

/-- Variant 2 `load`: `getComponentURL` logs and resolves when the record is
absent; `isValidURL` logs the missing-parts message and `load` resolves when
either URL is falsy; otherwise `loadComponent` is awaited. -/
def load2 (B : Behavior) (reg : Reg2) (c : String) :
    List Event × Except String Unit :=
  let tr0 := [Event.loadStart c]
  match reg.getURL c with
  | none =>
    (tr0 ++ [Event.logError ("Failed to retrieve URL for component " ++ c)],
      Except.ok ())
  | some info =>
    if falsyOpt info.js || falsyOpt info.css then
      (tr0 ++ [Event.logError (missingMessage info c)], Except.ok ())
    else
      let lc := loadComponent2 B (info.js.getD "") (info.css.getD "") c
      (tr0 ++ lc.1, lc.2)

/-- Variant 2 `loadAll`: map every registry key to
`load(c).catch(err => log("Error loading c", err))` and `Promise.all` the
results. -/
def loadAll2 (B : Behavior) (reg : Reg2) : List Event × Except String Unit :=
  let f := fun c => catchLog ("Error loading " ++ c) (load2 B reg c)
  (batchTrace f reg.keys, promiseAll (batchResults f reg.keys))

/-- Variant 2 `init`: validate options; await the registry fetch (a
rejection rejects `init`); apply caller overrides when present; then
`loadAll`. The ambient storage is never consulted. -/
def init2 (B : Behavior) (reg : Reg2) (_store : Store) (opts : InitOptions2) :
    List Event × Except String Unit :=
  match validateOptions opts.systemCode with
  | Except.error e => ([], Except.error e)
  | Except.ok _ =>
    let sc := opts.systemCode.getD ""
    match B.fetchResult sc with
    | Except.error e => ([Event.registryFetch sc], Except.error e)
    | Except.ok _ =>
      let ovEvents := match opts.overrides with
        | some _ => [Event.applyOverrides]
        | none => []
      let rest := loadAll2 B reg
      ([Event.registryFetch sc] ++ ovEvents ++ rest.1, rest.2)

/-- The stylesheet URLs passed to the styling collaborator in a trace. -/
def stylingCalls (tr : List Event) : List String :=
  tr.filterMap fun e => match e with
    | Event.addStyling u => some u
    | _ => none

/-- The script URLs passed to `importModule` (variant 1) in a trace. -/
def importCalls (tr : List Event) : List String :=
  tr.filterMap fun e => match e with
    | Event.importModule u => some u
    | _ => none

/-- The script URLs passed to `createModuleScript` (variant 2) in a trace. -/
def scriptCalls (tr : List Event) : List String :=
  tr.filterMap fun e => match e with
    | Event.createModuleScript u => some u
    | _ => none

/-- The system codes passed to the registry `fetch` in a trace. -/
def fetchCalls (tr : List Event) : List String :=
  tr.filterMap fun e => match e with
    | Event.registryFetch sc => some sc
    | _ => none

/-- How many override layers are applied in a trace. -/
def applyCount (tr : List Event) : Nat :=
  tr.countP fun e => match e with
    | Event.applyOverrides => true
    | _ => false

/-- How many times `load` is initiated for component `c` in a trace. -/
def startCount (c : String) (tr : List Event) : Nat :=
  tr.countP fun e => match e with
    | Event.loadStart c' => c' == c
    | _ => false

/-- Whether a trace reads any persisted storage key. -/
def readsStorage (tr : List Event) : Bool :=
  tr.any fun e => match e with
    | Event.readStorage _ => true
    | _ => false

/-- Events a contained per-component load may emit besides its own
`loadStart`: no registry fetch, no override application, no storage read,
no further load initiation. -/
def benign (e : Event) : Bool :=
  match e with
  | Event.registryFetch _ => false
  | Event.applyOverrides => false
  | Event.readStorage _ => false
  | Event.loadStart _ => false
  | _ => true

/-! ### Concrete fixtures used by witnesses and counterexamples -/

/-- A module exposing both lifecycle hooks, both resolving. -/
def mBoth : ComponentModule :=
  { hasInit := true, hasMount := true, initErr := none, mountErr := none }

/-- Collaborators that always succeed. -/
def bOk : Behavior :=
  { moduleLoaderInitResult := Except.ok ()
    fetchResult := fun _ => Except.ok ()
    addStylingResult := fun _ => Except.ok ()
    importModuleResult := fun _ => Except.ok mBoth
    createModuleScriptResult := fun _ => Except.ok mBoth }

/-- Collaborators whose styling application throws synchronously. -/
def bStyleThrow : Behavior :=
  { bOk with addStylingResult := fun _ => Except.error "styling-throw" }

/-- Collaborators for which only the module resolution of component B
rejects, in either variant. -/
def bMix : Behavior :=
  { bOk with
    importModuleResult := fun u =>
      if u = "urlB/js" then Except.error "module-rejection"
      else Except.ok mBoth
    createModuleScriptResult := fun u =>
      if u = "b.js" then Except.error "module-rejection"
      else Except.ok mBoth }

/-- A variant-1 registry holding components A and B. -/
def fixtureReg1 : Reg1 :=
  { keys := ["A", "B"]
    getURL := fun c => if c = "A" then some "urlA" else some "urlB" }

/-- A variant-2 registry holding component A with both asset URLs. -/
def fixtureReg2 : Reg2 :=
  { keys := ["A"]
    getURL := fun _ => some { js := some "a.js", css := some "a.css" } }

/-- A variant-2 registry holding components A and B with all asset URLs. -/
def fixtureReg2AB : Reg2 :=
  { keys := ["A", "B"]
    getURL := fun c =>
      if c = "A" then some { js := some "a.js", css := some "a.css" }
      else some { js := some "b.js", css := some "b.css" } }

/-- A variant-2 registry whose component record is missing the script URL. -/
def regJsMissing : Reg2 :=
  { keys := ["A"], getURL := fun _ => some { js := none, css := some "a.css" } }

/-- A variant-2 registry whose component record is missing both URLs. -/
def regBothMissing : Reg2 :=
  { keys := ["A"], getURL := fun _ => some { js := none, css := none } }

/-- Empty persisted storage. -/
def st0 : Store := fun _ => none

/-- Persisted storage holding an override payload under the reserved key. -/
def stPersisted : Store := fun k =>
  if k = "ef-overrides" then some "persisted-override-payload" else none

/-- Variant-1 init options with a valid system code and a caller override. -/
def opts1Fix : InitOptions1 :=
  { systemCode := some "sys", overrides := some [("A", "callerUrlA")] }

/-- Variant-2 init options with a valid system code and a caller override. -/
def opts2Fix : InitOptions2 :=
  { systemCode := some "sys"
    overrides := some [("A", { js := some "caller.js", css := some "caller.css" })] }

/-! ### Helper lemmas -/

lemma execLM_shape (m : ComponentModule) :
    (executeLifecycleMethods m).1 = [] ∨
    (executeLifecycleMethods m).1 = [Event.invokeInit m] ∨
    (executeLifecycleMethods m).1 = [Event.invokeMount m] ∨
    (executeLifecycleMethods m).1 = [Event.invokeInit m, Event.invokeMount m] := by
  rcases m with ⟨hi, hm, ie, me⟩
  cases hi <;> cases hm <;> cases ie <;> cases me <;>
    simp [executeLifecycleMethods]

lemma execLM_quiet (m : ComponentModule) :
    stylingCalls (executeLifecycleMethods m).1 = [] ∧
    importCalls (executeLifecycleMethods m).1 = [] ∧
    scriptCalls (executeLifecycleMethods m).1 = [] ∧
    fetchCalls (executeLifecycleMethods m).1 = [] ∧
    applyCount (executeLifecycleMethods m).1 = 0 ∧
    readsStorage (executeLifecycleMethods m).1 = false ∧
    (∀ c, startCount c (executeLifecycleMethods m).1 = 0) ∧
    (∀ s, Event.logError s ∉ (executeLifecycleMethods m).1) := by
  rcases execLM_shape m with h | h | h | h <;> rw [h] <;>
    simp [stylingCalls, importCalls, scriptCalls, fetchCalls, applyCount,
      readsStorage, startCount]

lemma benign_execLM (m : ComponentModule) :
    ∀ e ∈ (executeLifecycleMethods m).1, benign e = true := by
  rcases execLM_shape m with h | h | h | h <;> rw [h] <;> simp [benign]

lemma load1_shape (Bh : Behavior) (reg : Reg1) (c : String) :
    ∃ t, (load1 Bh reg c).1 = Event.loadStart c :: t ∧
      ∀ e ∈ t, benign e = true := by
  unfold load1
  cases hg : reg.getURL c
  · simp [benign]
  case some url =>
    by_cases hu : url = ""
    · simp [hu, benign]
    · simp only [if_neg hu]
      cases hs : Bh.addStylingResult url
      · simp [benign]
      cases hi : Bh.importModuleResult (url ++ "/js")
      · simp [benign]
      next m =>
        have hb := benign_execLM m
        cases hl : (executeLifecycleMethods m).2 <;>
          simp [hl, benign] <;> intro e he <;>
          first
            | exact hb e he
            | (rcases he with he | he
               · exact hb e he
               · simp [he, benign])


lemma fetchCalls_cons_benign (e : Event) (tr : List Event)
    (h : benign e = true) : fetchCalls (e :: tr) = fetchCalls tr := by
  cases e <;> simp [benign] at h <;> simp [fetchCalls]

lemma applyCount_cons_benign (e : Event) (tr : List Event)
    (h : benign e = true) : applyCount (e :: tr) = applyCount tr := by
  cases e <;> simp [benign] at h <;> simp [applyCount, List.countP_cons]

lemma readsStorage_cons_benign (e : Event) (tr : List Event)
    (h : benign e = true) : readsStorage (e :: tr) = readsStorage tr := by
  cases e <;> simp [benign] at h <;> simp [readsStorage]

lemma startCount_cons_benign (c : String) (e : Event) (tr : List Event)
    (h : benign e = true) : startCount c (e :: tr) = startCount c tr := by
  cases e <;> simp [benign] at h <;> simp [startCount, List.countP_cons]

lemma quiet_of_benign (tr : List Event) (h : ∀ e ∈ tr, benign e = true) :
    fetchCalls tr = [] ∧ applyCount tr = 0 ∧ readsStorage tr = false ∧
    (∀ c, startCount c tr = 0) := by
  induction tr with
  | nil => simp [fetchCalls, applyCount, readsStorage, startCount]
  | cons e tl ih =>
    have he := h e (by simp)
    obtain ⟨h1, h2, h3, h4⟩ := ih (fun x hx => h x (by simp [hx]))
    exact ⟨by rw [fetchCalls_cons_benign e tl he, h1],
      by rw [applyCount_cons_benign e tl he, h2],
      by rw [readsStorage_cons_benign e tl he, h3],
      fun c => by rw [startCount_cons_benign c e tl he, h4 c]⟩

lemma load1_quiet (Bh : Behavior) (reg : Reg1) (c : String) :
    fetchCalls (load1 Bh reg c).1 = [] ∧
    applyCount (load1 Bh reg c).1 = 0 ∧
    readsStorage (load1 Bh reg c).1 = false ∧
    (∀ c', startCount c' (load1 Bh reg c).1 = if c = c' then 1 else 0) := by
  obtain ⟨t, ht, hb⟩ := load1_shape Bh reg c
  obtain ⟨h1, h2, h3, h4⟩ := quiet_of_benign t hb
  rw [ht]
  refine ⟨?_, ?_, ?_, fun c' => ?_⟩
  · simpa [fetchCalls] using h1
  · simpa [applyCount, List.countP_cons] using h2
  · simpa [readsStorage] using h3
  · have h0 := h4 c'
    unfold startCount at h0 ⊢
    rw [List.countP_cons, h0]
    by_cases hcc : c = c' <;> simp [hcc]

lemma loadComponent2_benign (Bh : Behavior) (js css c : String) :
    ∀ e ∈ (loadComponent2 Bh js css c).1, benign e = true := by
  unfold loadComponent2
  cases hs : Bh.addStylingResult css
  · intro e he
    simp at he
    subst he
    rfl
  cases hm : Bh.createModuleScriptResult js
  · intro e he
    simp at he
    rcases he with he | he | he <;> subst he <;> rfl
  next m =>
    have hb := benign_execLM m
    intro e he
    simp at he
    rcases he with he | he | he
    · subst he; rfl
    · subst he; rfl
    · exact hb e he

lemma load2_shape (Bh : Behavior) (reg : Reg2) (c : String) :
    ∃ t, (load2 Bh reg c).1 = Event.loadStart c :: t ∧
      ∀ e ∈ t, benign e = true := by
  unfold load2
  cases hg : reg.getURL c
  · simp [benign]
  case some info =>
    by_cases hv : (falsyOpt info.js || falsyOpt info.css) = true
    · simp [hv, benign]
    · simp only [hv, Bool.false_eq_true, if_false, if_neg]
      refine ⟨(loadComponent2 Bh (info.js.getD "") (info.css.getD "") c).1,
        by simp, loadComponent2_benign Bh _ _ c⟩

lemma load2_quiet (Bh : Behavior) (reg : Reg2) (c : String) :
    fetchCalls (load2 Bh reg c).1 = [] ∧
    applyCount (load2 Bh reg c).1 = 0 ∧
    readsStorage (load2 Bh reg c).1 = false ∧
    (∀ c', startCount c' (load2 Bh reg c).1 = if c = c' then 1 else 0) := by
  obtain ⟨t, ht, hb⟩ := load2_shape Bh reg c
  obtain ⟨h1, h2, h3, h4⟩ := quiet_of_benign t hb
  rw [ht]
  refine ⟨?_, ?_, ?_, fun c' => ?_⟩
  · simpa [fetchCalls] using h1
  · simpa [applyCount, List.countP_cons] using h2
  · simpa [readsStorage] using h3
  · have h0 := h4 c'
    unfold startCount at h0 ⊢
    rw [List.countP_cons, h0]
    by_cases hcc : c = c' <;> simp [hcc]

lemma catchLog_trace (msg : String) (p : List Event × Except String Unit) :
    (catchLog msg p).1 = p.1 ∨ (catchLog msg p).1 = p.1 ++ [Event.logError msg] := by
  cases hp : p.2 <;> simp [catchLog, hp]

lemma catchLog_ok (msg : String) (p : List Event × Except String Unit) :
    (catchLog msg p).2 = Except.ok () := by
  cases hp : p.2 <;> simp [catchLog, hp]

lemma catchLog_mem (msg : String) (p : List Event × Except String Unit)
    (e : Event) (he : e ∈ p.1) : e ∈ (catchLog msg p).1 := by
  rcases catchLog_trace msg p with h | h <;> rw [h]
  · exact he
  · exact List.mem_append_left _ he

lemma promiseAll_ok (rs : List (Except String Unit))
    (h : ∀ r ∈ rs, r = Except.ok ()) : promiseAll rs = Except.ok () := by
  induction rs with
  | nil => rfl
  | cons r tl ih =>
    have hr := h r (by simp)
    rw [hr]
    exact ih (fun x hx => h x (by simp [hx]))

lemma batchResults_catchLog_ok (f : String → List Event × Except String Unit)
    (keys : List String) :
    ∀ r ∈ batchResults (fun c => catchLog (("Error loading " ++ c)) (f c)) keys,
      r = Except.ok () := by
  induction keys with
  | nil => simp [batchResults]
  | cons c tl ih =>
    simp [batchResults]
    exact ⟨catchLog_ok _ _, ih⟩

lemma loadAll2_ok (Bh : Behavior) (reg : Reg2) :
    (loadAll2 Bh reg).2 = Except.ok () := by
  unfold loadAll2
  exact promiseAll_ok _ (batchResults_catchLog_ok (fun c => load2 Bh reg c) reg.keys)

lemma mem_batchTrace (f : String → List Event × Except String Unit)
    (keys : List String) (c : String) (hc : c ∈ keys) (e : Event)
    (he : e ∈ (f c).1) : e ∈ batchTrace f keys := by
  induction keys with
  | nil => cases hc
  | cons a tl ih =>
    rcases List.mem_cons.mp hc with h | h
    · subst h
      exact List.mem_append_left _ he
    · exact List.mem_append_right _ (ih h)

lemma batchTrace_quiet (f : String → List Event × Except String Unit)
    (keys : List String)
    (h : ∀ c ∈ keys, fetchCalls (f c).1 = [] ∧ applyCount (f c).1 = 0 ∧
      readsStorage (f c).1 = false) :
    fetchCalls (batchTrace f keys) = [] ∧
    applyCount (batchTrace f keys) = 0 ∧
    readsStorage (batchTrace f keys) = false := by
  induction keys with
  | nil => simp [batchTrace, fetchCalls, applyCount, readsStorage]
  | cons a tl ih =>
    obtain ⟨ha1, ha2, ha3⟩ := h a (by simp)
    obtain ⟨h1, h2, h3⟩ := ih (fun x hx => h x (by simp [hx]))
    unfold batchTrace
    unfold fetchCalls applyCount readsStorage at *
    rw [List.filterMap_append, List.countP_append, List.any_append]
    rw [ha1, ha2, ha3, h1, h2, h3]
    simp

lemma startCount_batchTrace (f : String → List Event × Except String Unit)
    (c : String) (keys : List String)
    (h : ∀ c' ∈ keys, startCount c (f c').1 = if c' = c then 1 else 0) :
    startCount c (batchTrace f keys) = keys.count c := by
  induction keys with
  | nil => simp [batchTrace, startCount]
  | cons a tl ih =>
    have ha := h a (by simp)
    have htl := ih (fun x hx => h x (by simp [hx]))
    unfold batchTrace
    unfold startCount at ha htl ⊢
    rw [List.countP_append, ha, htl, List.count_cons]
    by_cases hac : a = c <;> simp [hac] <;> omega

lemma catchLog_measures (msg : String) (p : List Event × Except String Unit) :
    fetchCalls (catchLog msg p).1 = fetchCalls p.1 ∧
    applyCount (catchLog msg p).1 = applyCount p.1 ∧
    readsStorage (catchLog msg p).1 = readsStorage p.1 ∧
    (∀ c, startCount c (catchLog msg p).1 = startCount c p.1) := by
  rcases catchLog_trace msg p with h | h <;> rw [h]
  · exact ⟨rfl, rfl, rfl, fun _ => rfl⟩
  · unfold fetchCalls applyCount readsStorage startCount
    rw [List.filterMap_append, List.countP_append, List.any_append]
    simp

lemma loadAll1_quiet (Bh : Behavior) (reg : Reg1) :
    fetchCalls (loadAll1 Bh reg).1 = [] ∧
    applyCount (loadAll1 Bh reg).1 = 0 ∧
    readsStorage (loadAll1 Bh reg).1 = false ∧
    (loadAll1 Bh reg).2 = Except.ok () := by
  unfold loadAll1
  have hp1 := batchTrace_quiet
    (fun c => catchLog ("Failed to initialise and mount " ++ c) (load1 Bh reg c))
    reg.keys (fun c _ => by
      obtain ⟨m1, m2, m3, -⟩ :=
        catchLog_measures ("Failed to initialise and mount " ++ c) (load1 Bh reg c)
      obtain ⟨q1, q2, q3, -⟩ := load1_quiet Bh reg c
      exact ⟨m1.trans q1, m2.trans q2, m3.trans q3⟩)
  have hp2 := batchTrace_quiet (fun c => load1 Bh reg c) reg.keys (fun c _ => by
    obtain ⟨q1, q2, q3, -⟩ := load1_quiet Bh reg c
    exact ⟨q1, q2, q3⟩)
  obtain ⟨a1, a2, a3⟩ := hp1
  obtain ⟨b1, b2, b3⟩ := hp2
  unfold fetchCalls applyCount readsStorage at *
  rw [List.filterMap_append, List.countP_append, List.any_append,
    a1, a2, a3, b1, b2, b3]
  simp

lemma loadAll2_quiet (Bh : Behavior) (reg : Reg2) :
    fetchCalls (loadAll2 Bh reg).1 = [] ∧
    applyCount (loadAll2 Bh reg).1 = 0 ∧
    readsStorage (loadAll2 Bh reg).1 = false := by
  unfold loadAll2
  exact batchTrace_quiet _ reg.keys (fun c _ => by
    obtain ⟨m1, m2, m3, -⟩ :=
      catchLog_measures ("Error loading " ++ c) (load2 Bh reg c)
    obtain ⟨q1, q2, q3, -⟩ := load2_quiet Bh reg c
    exact ⟨m1.trans q1, m2.trans q2, m3.trans q3⟩)

lemma load1_ok_traces (Bh : Behavior) (reg : Reg1) (c url : String)
    (m : ComponentModule) (hg : reg.getURL c = some url) (hu : ¬url = "")
    (hs : Bh.addStylingResult url = Except.ok ())
    (him : Bh.importModuleResult (url ++ "/js") = Except.ok m) :
    ((executeLifecycleMethods m).2 = Except.ok () →
      (load1 Bh reg c).1 = Event.loadStart c :: Event.addStyling url ::
        Event.importModule (url ++ "/js") :: (executeLifecycleMethods m).1) ∧
    (∀ e, (executeLifecycleMethods m).2 = Except.error e →
      (load1 Bh reg c).1 = Event.loadStart c :: Event.addStyling url ::
        Event.importModule (url ++ "/js") :: ((executeLifecycleMethods m).1 ++
          [Event.logError
            ("Error when mounting component " ++ c ++ " using SystemJS")])) := by
  constructor
  · intro hl
    simp [load1, hg, hu, hs, him, hl]
  · intro e hl
    simp [load1, hg, hu, hs, him, hl]

lemma loadComponent2_styleThrow (Bh : Behavior) (js css c e : String)
    (hs : Bh.addStylingResult css = Except.error e) :
    loadComponent2 Bh js css c = ([Event.addStyling css], Except.error e) := by
  simp [loadComponent2, hs]

lemma loadComponent2_moduleThrow (Bh : Behavior) (js css c e : String)
    (hs : Bh.addStylingResult css = Except.ok ())
    (hm : Bh.createModuleScriptResult js = Except.error e) :
    loadComponent2 Bh js css c =
      ([Event.addStyling css, Event.createModuleScript js,
        Event.logError ("Failed to load component " ++ c ++ " using SystemJS")],
        Except.ok ()) := by
  simp [loadComponent2, hs, hm]

lemma loadComponent2_moduleOk (Bh : Behavior) (js css c : String)
    (m : ComponentModule) (hs : Bh.addStylingResult css = Except.ok ())
    (hm : Bh.createModuleScriptResult js = Except.ok m) :
    loadComponent2 Bh js css c =
      (Event.addStyling css :: Event.createModuleScript js ::
        (executeLifecycleMethods m).1, Except.ok ()) := by
  simp [loadComponent2, hs, hm]

lemma load2_valid (Bh : Behavior) (reg : Reg2) (c : String) (info : UrlInfo)
    (j s : String) (hg : reg.getURL c = some info) (hj : info.js = some j)
    (hj2 : ¬j = "") (hcs : info.css = some s) (hs2 : ¬s = "") :
    load2 Bh reg c =
      (Event.loadStart c :: (loadComponent2 Bh j s c).1,
        (loadComponent2 Bh j s c).2) := by
  simp [load2, hg, hj, hcs, falsyOpt, hj2, hs2]

lemma init1_shape (Bh : Behavior) (reg : Reg1) (st : Store)
    (o : InitOptions1) (sc : String) (h1 : o.systemCode = some sc)
    (hsc : ¬sc = "") :
    ∃ rest, (init1 Bh reg st o).1 =
        Event.moduleLoaderInit :: Event.registryFetch sc :: rest ∧
      fetchCalls rest = [] ∧ readsStorage rest = false := by
  have hv : validateOptions o.systemCode = Except.ok () := by
    simp [validateOptions, falsyOpt, h1, hsc]
  unfold init1
  rw [hv]
  simp only [h1, Option.getD]
  cases hml : Bh.moduleLoaderInitResult
  · exact ⟨[], by simp [fetchCalls, readsStorage]⟩
  cases hf : Bh.fetchResult sc
  · exact ⟨[], by simp [fetchCalls, readsStorage]⟩
  obtain ⟨q1, q2, q3, -⟩ := loadAll1_quiet Bh reg
  cases ho : o.overrides
  · refine ⟨(loadAll1 Bh reg).1, by simp, ?_, ?_⟩
    · exact q1
    · exact q3
  · refine ⟨Event.applyOverrides :: (loadAll1 Bh reg).1, by simp, ?_, ?_⟩
    · simpa [fetchCalls] using q1
    · simpa [readsStorage] using q3

lemma init2_shape (Bh : Behavior) (reg : Reg2) (st : Store)
    (o : InitOptions2) (sc : String) (h1 : o.systemCode = some sc)
    (hsc : ¬sc = "") :
    ∃ rest, (init2 Bh reg st o).1 = Event.registryFetch sc :: rest ∧
      fetchCalls rest = [] ∧ readsStorage rest = false := by
  have hv : validateOptions o.systemCode = Except.ok () := by
    simp [validateOptions, falsyOpt, h1, hsc]
  unfold init2
  rw [hv]
  simp only [h1, Option.getD]
  cases hf : Bh.fetchResult sc
  · exact ⟨[], by simp [fetchCalls, readsStorage]⟩
  obtain ⟨q1, q2, q3⟩ := loadAll2_quiet Bh reg
  cases ho : o.overrides
  · refine ⟨(loadAll2 Bh reg).1, by simp, q1, q3⟩
  · refine ⟨Event.applyOverrides :: (loadAll2 Bh reg).1, by simp, ?_, ?_⟩
    · simpa [fetchCalls] using q1
    · simpa [readsStorage] using q3

lemma init1_ok_eq (Bh : Behavior) (reg : Reg1) (st : Store)
    (o : InitOptions1) (sc : String) (h1 : o.systemCode = some sc)
    (hsc : ¬sc = "") (hml : Bh.moduleLoaderInitResult = Except.ok ())
    (hf : Bh.fetchResult sc = Except.ok ()) :
    init1 Bh reg st o =
      (Event.moduleLoaderInit :: Event.registryFetch sc ::
        ((if o.overrides.isSome then [Event.applyOverrides] else []) ++
          (loadAll1 Bh reg).1), (loadAll1 Bh reg).2) := by
  have hv : validateOptions o.systemCode = Except.ok () := by
    simp [validateOptions, falsyOpt, h1, hsc]
  unfold init1
  rw [hv]
  simp only [h1, Option.getD, hml, hf]
  cases ho : o.overrides <;> simp

lemma init2_ok_eq (Bh : Behavior) (reg : Reg2) (st : Store)
    (o : InitOptions2) (sc : String) (h1 : o.systemCode = some sc)
    (hsc : ¬sc = "") (hf : Bh.fetchResult sc = Except.ok ()) :
    init2 Bh reg st o =
      (Event.registryFetch sc ::
        ((if o.overrides.isSome then [Event.applyOverrides] else []) ++
          (loadAll2 Bh reg).1), (loadAll2 Bh reg).2) := by
  have hv : validateOptions o.systemCode = Except.ok () := by
    simp [validateOptions, falsyOpt, h1, hsc]
  unfold init2
  rw [hv]
  simp only [h1, Option.getD, hf]
  cases ho : o.overrides <;> simp

lemma load1_ok (Bh : Behavior) (reg : Reg1) (c : String) :
    (load1 Bh reg c).2 = Except.ok () := by
  unfold load1
  cases hg : reg.getURL c
  · simp
  case some url =>
    by_cases hu : url = ""
    · simp [hu]
    · simp only [if_neg hu]
      cases hs : Bh.addStylingResult url
      · simp
      cases hi : Bh.importModuleResult (url ++ "/js")
      · simp
      next m =>
        cases hl : (executeLifecycleMethods m).2 <;> simp [hl]

/-! ### Claims -/

/-- Claim C3: for every `InitOptions` whose `systemCode` is absent or empty,
both variants of `init` reject with the configuration error
`Must provide a systemCode option` and emit no collaborator call at all
(empty trace): the registry fetch, the module loader, the styling handler
and the persisted storage are never touched. -/
theorem claim_C3 (B1 B2 : Behavior) (reg1 : Reg1) (reg2 : Reg2) (st : Store)
    (o1 : InitOptions1) (o2 : InitOptions2)
    (h1 : o1.systemCode = none ∨ o1.systemCode = some "")
    (h2 : o2.systemCode = none ∨ o2.systemCode = some "") :
    init1 B1 reg1 st o1 =
      ([], Except.error "Must provide a systemCode option") ∧
    init2 B2 reg2 st o2 =
      ([], Except.error "Must provide a systemCode option") := by
  constructor
  · rcases h1 with h | h <;> simp [init1, validateOptions, falsyOpt, h]
  · rcases h2 with h | h <;> simp [init2, validateOptions, falsyOpt, h]

/-- Witness for C3 at concrete invalid options. -/
theorem claim_C3_witness :
    init1 bOk fixtureReg1 st0 { systemCode := some "" } =
      ([], Except.error "Must provide a systemCode option") ∧
    init2 bOk fixtureReg2 st0 {} =
      ([], Except.error "Must provide a systemCode option") :=
  claim_C3 bOk bOk fixtureReg1 fixtureReg2 st0
    { systemCode := some "" } {} (Or.inr rfl) (Or.inl rfl)

/-- Claim C4: for every `init` call with a valid (non-empty) system code,
the registry fetch is called exactly once, with exactly that system code,
and it is the first collaborator call after (in variant 1) the module
own `init` of the module loader: it precedes every override application and every
per-component load. -/
theorem claim_C4 (Bh : Behavior) (reg1 : Reg1) (reg2 : Reg2) (st : Store)
    (o1 : InitOptions1) (o2 : InitOptions2) (sc : String)
    (h1 : o1.systemCode = some sc) (h2 : o2.systemCode = some sc)
    (hsc : sc ≠ "") :
    fetchCalls (init1 Bh reg1 st o1).1 = [sc] ∧
    (init1 Bh reg1 st o1).1.take 2 =
      [Event.moduleLoaderInit, Event.registryFetch sc] ∧
    applyCount ((init1 Bh reg1 st o1).1.take 2) = 0 ∧
    (∀ c, startCount c ((init1 Bh reg1 st o1).1.take 2) = 0) ∧
    fetchCalls (init2 Bh reg2 st o2).1 = [sc] ∧
    (init2 Bh reg2 st o2).1.take 1 = [Event.registryFetch sc] ∧
    applyCount ((init2 Bh reg2 st o2).1.take 1) = 0 ∧
    (∀ c, startCount c ((init2 Bh reg2 st o2).1.take 1) = 0) := by
  obtain ⟨r1, htr1, hf1, -⟩ := init1_shape Bh reg1 st o1 sc h1 hsc
  obtain ⟨r2, htr2, hf2, -⟩ := init2_shape Bh reg2 st o2 sc h2 hsc
  rw [htr1, htr2]
  refine ⟨?_, by simp, by simp [applyCount], fun c => by simp [startCount],
    ?_, by simp, by simp [applyCount], fun c => by simp [startCount]⟩
  · unfold fetchCalls at hf1 ⊢
    simp [hf1]
  · unfold fetchCalls at hf2 ⊢
    simp [hf2]

/-- Witness for C4 at a concrete valid `init` call. -/
theorem claim_C4_witness :
    fetchCalls (init1 bOk fixtureReg1 st0 opts1Fix).1 = ["sys"] ∧
    (init1 bOk fixtureReg1 st0 opts1Fix).1.take 2 =
      [Event.moduleLoaderInit, Event.registryFetch "sys"] ∧
    applyCount ((init1 bOk fixtureReg1 st0 opts1Fix).1.take 2) = 0 ∧
    (∀ c, startCount c ((init1 bOk fixtureReg1 st0 opts1Fix).1.take 2) = 0) ∧
    fetchCalls (init2 bOk fixtureReg2 st0 opts2Fix).1 = ["sys"] ∧
    (init2 bOk fixtureReg2 st0 opts2Fix).1.take 1 =
      [Event.registryFetch "sys"] ∧
    applyCount ((init2 bOk fixtureReg2 st0 opts2Fix).1.take 1) = 0 ∧
    (∀ c, startCount c ((init2 bOk fixtureReg2 st0 opts2Fix).1.take 1) = 0) :=
  claim_C4 bOk fixtureReg1 fixtureReg2 st0 opts1Fix opts2Fix "sys"
    rfl rfl (by decide)

/-- Claim C8: for every resolved component module, an exposed `init`
capability is invoked and awaited to completion before `mount` is
considered (a rejecting `init` prevents `mount`), an exposed `mount`
capability is then invoked and awaited, `init` is never invoked after
`mount`, and absence of either capability is a no-op for that phase, never
an error. -/
theorem claim_C8 (m : ComponentModule) :
    (m.hasInit = true →
      ((executeLifecycleMethods m).1).head? = some (Event.invokeInit m)) ∧
    (m.hasInit = false →
      Event.invokeInit m ∉ (executeLifecycleMethods m).1) ∧
    (m.hasMount = false →
      Event.invokeMount m ∉ (executeLifecycleMethods m).1) ∧
    (m.hasInit = true → m.initErr = none → m.hasMount = true →
      (executeLifecycleMethods m).1 =
        [Event.invokeInit m, Event.invokeMount m]) ∧
    (m.hasInit = true → m.initErr.isSome = true →
      Event.invokeMount m ∉ (executeLifecycleMethods m).1) ∧
    (∀ l r, (executeLifecycleMethods m).1 = l ++ Event.invokeMount m :: r →
      Event.invokeInit m ∉ r) ∧
    (m.hasInit = false → m.hasMount = false →
      executeLifecycleMethods m = ([], Except.ok ())) ∧
    (m.hasInit = false → m.hasMount = true → m.mountErr = none →
      executeLifecycleMethods m = ([Event.invokeMount m], Except.ok ())) ∧
    (m.hasInit = true → m.initErr = none → m.hasMount = false →
      executeLifecycleMethods m = ([Event.invokeInit m], Except.ok ())) := by
  rcases m with ⟨hi0, hm0, ie0, me0⟩
  cases hi0 <;> cases hm0 <;> cases ie0 <;> cases me0 <;>
    refine ⟨?_, ?_, ?_, ?_, ?_, ?_, ?_, ?_, ?_⟩ <;>
      simp [executeLifecycleMethods] <;>
      (intro l r hlr
       rcases l with _ | ⟨x, _ | ⟨y, l⟩⟩ <;> simp_all)

/-- Witness for C8 at a module exposing both capabilities. -/
theorem claim_C8_witness :
    (executeLifecycleMethods mBoth).1 =
      [Event.invokeInit mBoth, Event.invokeMount mBoth] :=
  (claim_C8 mBoth).2.2.2.1 rfl rfl rfl

/-- Claim C9: in the first source variant, one `loadAll` call initiates the
full load routine exactly twice for every component of the registry
snapshot: once in the fire-and-forget pass and once inside the
settle-all barrier. -/
theorem claim_C9 (Bh : Behavior) (reg : Reg1) (c : String)
    (hc : c ∈ reg.keys) (hnd : reg.keys.Nodup) :
    startCount c (loadAll1 Bh reg).1 = 2 := by
  have hcnt : reg.keys.count c = 1 := List.count_eq_one_of_mem hnd hc
  have h1 := startCount_batchTrace
    (fun c' => catchLog ("Failed to initialise and mount " ++ c')
      (load1 Bh reg c')) c reg.keys
    (fun c' _ => by
      rw [(catchLog_measures ("Failed to initialise and mount " ++ c')
        (load1 Bh reg c')).2.2.2 c]
      exact (load1_quiet Bh reg c').2.2.2 c)
  have h2 := startCount_batchTrace (fun c' => load1 Bh reg c') c reg.keys
    (fun c' _ => (load1_quiet Bh reg c').2.2.2 c)
  unfold loadAll1
  unfold startCount at h1 h2 ⊢
  rw [List.countP_append, h1, h2, hcnt]

/-- Witness for C9 at a concrete two-component registry. -/
theorem claim_C9_witness : startCount "A" (loadAll1 bOk fixtureReg1).1 = 2 :=
  claim_C9 bOk fixtureReg1 "A" (by decide) (by decide)

/-- Claim C10: in the first source variant, `load` performs no per-asset
presence validation: for every component found in the registry (truthy
combined URL) it passes that URL unchanged to the styling collaborator and
that URL with the literal suffix "/js" appended to the module-loading
collaborator, never skipping a component for a missing script or stylesheet
field. -/
theorem claim_C10 (Bh : Behavior) (reg : Reg1) (c url : String)
    (hg : reg.getURL c = some url) (hu : url ≠ "") :
    (load1 Bh reg c).1.take 2 = [Event.loadStart c, Event.addStyling url] ∧
    stylingCalls (load1 Bh reg c).1 = [url] ∧
    (Bh.addStylingResult url = Except.ok () →
      importCalls (load1 Bh reg c).1 = [url ++ "/js"] ∧
      (load1 Bh reg c).1.take 3 = [Event.loadStart c, Event.addStyling url,
        Event.importModule (url ++ "/js")]) := by
  unfold load1
  simp only [hg, if_neg hu]
  cases hs : Bh.addStylingResult url
  · refine ⟨by simp, by simp [stylingCalls], fun h => ?_⟩
    simp at h
  cases hi : Bh.importModuleResult (url ++ "/js")
  · exact ⟨by simp, by simp [stylingCalls], fun _ =>
      ⟨by simp [importCalls], by simp⟩⟩
  next m =>
    obtain ⟨q1, q2, -, -, -, -, -, -⟩ := execLM_quiet m
    simp only [stylingCalls, importCalls] at q1 q2
    cases hl : (executeLifecycleMethods m).2 <;>
      refine ⟨by simp [hl], ?_, fun _ => ⟨?_, by simp [hl]⟩⟩ <;>
        simp [hl, stylingCalls, importCalls, List.filterMap_append, q1, q2]

/-- Witness for C10 at a concrete component. -/
theorem claim_C10_witness :
    (load1 bOk fixtureReg1 "A").1.take 2 =
      [Event.loadStart "A", Event.addStyling "urlA"] ∧
    stylingCalls (load1 bOk fixtureReg1 "A").1 = ["urlA"] ∧
    (bOk.addStylingResult "urlA" = Except.ok () →
      importCalls (load1 bOk fixtureReg1 "A").1 = ["urlA" ++ "/js"] ∧
      (load1 bOk fixtureReg1 "A").1.take 3 = [Event.loadStart "A",
        Event.addStyling "urlA", Event.importModule ("urlA" ++ "/js")]) :=
  claim_C10 bOk fixtureReg1 "A" "urlA" rfl (by decide)

/-- Claim C6: in the second source variant, for a component whose resolved
asset record is present, `load` validates both URLs: a missing script URL is
reported as exactly `Missing JS URL for component X`, a missing stylesheet
URL as `Missing CSS URL for component X`, both missing as
`Missing JS and CSS URL for component X` (script noted before stylesheet),
and in every missing-asset case `load` resolves as a contained no-op
without calling the module-loading collaborator. -/
theorem claim_C6 (Bh : Behavior) (reg : Reg2) (c : String) (info : UrlInfo)
    (hg : reg.getURL c = some info) :
    (falsyOpt info.js = true → falsyOpt info.css = false →
      (load2 Bh reg c).1 = [Event.loadStart c,
        Event.logError ("Missing JS URL for component " ++ c)]) ∧
    (falsyOpt info.js = true → falsyOpt info.css = true →
      (load2 Bh reg c).1 = [Event.loadStart c,
        Event.logError ("Missing JS and CSS URL for component " ++ c)]) ∧
    (falsyOpt info.js = false → falsyOpt info.css = true →
      (load2 Bh reg c).1 = [Event.loadStart c,
        Event.logError ("Missing CSS URL for component " ++ c)]) ∧
    ((falsyOpt info.js || falsyOpt info.css) = true →
      scriptCalls (load2 Bh reg c).1 = [] ∧
      importCalls (load2 Bh reg c).1 = [] ∧
      (load2 Bh reg c).2 = Except.ok ()) := by
  refine ⟨fun hj hc2 => ?_, fun hj hc2 => ?_, fun hj hc2 => ?_, fun hv => ?_⟩
  · have hmsg : missingMessage info c = "Missing JS URL for component " ++ c := by
      unfold missingMessage missingParts
      rw [hj, hc2]
      exact congrArg (fun s => s ++ c) (by decide)
    simp [load2, hg, hj, hmsg]
  · have hmsg : missingMessage info c =
        "Missing JS and CSS URL for component " ++ c := by
      unfold missingMessage missingParts
      rw [hj, hc2]
      exact congrArg (fun s => s ++ c) (by decide)
    simp [load2, hg, hj, hmsg]
  · have hmsg : missingMessage info c = "Missing CSS URL for component " ++ c := by
      unfold missingMessage missingParts
      rw [hj, hc2]
      exact congrArg (fun s => s ++ c) (by decide)
    simp [load2, hg, hj, hc2, hmsg]
  · simp [load2, hg, hv, scriptCalls, importCalls]

/-- Witness for C6 at concrete misconfigured components. -/
theorem claim_C6_witness :
    (load2 bOk regJsMissing "A").1 = [Event.loadStart "A",
      Event.logError ("Missing JS URL for component " ++ "A")] ∧
    (load2 bOk regBothMissing "A").1 = [Event.loadStart "A",
      Event.logError ("Missing JS and CSS URL for component " ++ "A")] ∧
    scriptCalls (load2 bOk regJsMissing "A").1 = [] ∧
    (load2 bOk regJsMissing "A").2 = Except.ok () :=
  ⟨(claim_C6 bOk regJsMissing "A" { js := none, css := some "a.css" } rfl).1
      rfl (by decide),
   (claim_C6 bOk regBothMissing "A" { js := none, css := none } rfl).2.1
      rfl rfl,
   ((claim_C6 bOk regJsMissing "A" { js := none, css := some "a.css" } rfl).2.2.2
      (by decide)).1,
   ((claim_C6 bOk regJsMissing "A" { js := none, css := some "a.css" } rfl).2.2.2
      (by decide)).2.2⟩

/-- Claim C7: in the second source variant, for a component whose asset
record has both URLs present, `load` passes exactly the stylesheet URL of
the record to the styling collaborator and exactly its script URL to the
module-loading collaborator (no derived URLs, no other asset URLs; the
script call is issued once styling has been applied without throwing). -/
theorem claim_C7 (Bh : Behavior) (reg : Reg2) (c : String) (info : UrlInfo)
    (j s : String) (hg : reg.getURL c = some info) (hj : info.js = some j)
    (hj2 : j ≠ "") (hcs : info.css = some s) (hs2 : s ≠ "") :
    stylingCalls (load2 Bh reg c).1 = [s] ∧
    importCalls (load2 Bh reg c).1 = [] ∧
    (∀ u, u ∈ scriptCalls (load2 Bh reg c).1 → u = j) ∧
    (Bh.addStylingResult s = Except.ok () →
      scriptCalls (load2 Bh reg c).1 = [j]) := by
  rw [load2_valid Bh reg c info j s hg hj hj2 hcs hs2]
  cases hs : Bh.addStylingResult s
  · rw [loadComponent2_styleThrow Bh j s c _ hs]
    refine ⟨by simp [stylingCalls], by simp [importCalls],
      by simp [scriptCalls], fun h => ?_⟩
    simp at h
  · cases hm : Bh.createModuleScriptResult j
    · rw [loadComponent2_moduleThrow Bh j s c _ hs hm]
      exact ⟨by simp [stylingCalls], by simp [importCalls],
        by simp [scriptCalls], fun _ => by simp [scriptCalls]⟩
    next m =>
      rw [loadComponent2_moduleOk Bh j s c m hs hm]
      obtain ⟨q1, q2, q3, -, -, -, -, -⟩ := execLM_quiet m
      simp only [stylingCalls, importCalls, scriptCalls] at q1 q2 q3
      refine ⟨?_, ?_, ?_, fun _ => ?_⟩ <;>
        simp [stylingCalls, importCalls, scriptCalls, q1, q2, q3]

/-- Witness for C7 at a concrete well-configured component. -/
theorem claim_C7_witness :
    stylingCalls (load2 bOk fixtureReg2 "A").1 = ["a.css"] ∧
    importCalls (load2 bOk fixtureReg2 "A").1 = [] ∧
    (∀ u, u ∈ scriptCalls (load2 bOk fixtureReg2 "A").1 → u = "a.js") ∧
    (bOk.addStylingResult "a.css" = Except.ok () →
      scriptCalls (load2 bOk fixtureReg2 "A").1 = ["a.js"]) :=
  claim_C7 bOk fixtureReg2 "A" { js := some "a.js", css := some "a.css" }
    "a.js" "a.css" rfl rfl (by decide) rfl (by decide)

lemma execLM_complete (m : ComponentModule) (hmt : m.hasMount = true)
    (hie : m.initErr = none) :
    Event.invokeMount m ∈ (executeLifecycleMethods m).1 ∧
    (m.hasInit = true → Event.invokeInit m ∈ (executeLifecycleMethods m).1) ∧
    (m.mountErr = none → (executeLifecycleMethods m).2 = Except.ok ()) := by
  rcases m with ⟨hi0, hm0, ie0, me0⟩
  simp only at hmt hie
  subst hmt hie
  cases hi0 <;> cases me0 <;> simp [executeLifecycleMethods]

/-- Claim C5: for every registry snapshot of either variant and every pair
of distinct components A and B, if the module resolution of B rejects while
the collaborators of A succeed, the lifecycle hooks of A still run, the
load of every registered component is still initiated, and `loadAll`
resolves normally with no observable rejection. -/
theorem claim_C5 (Bh : Behavior) (reg : Reg1) (reg2 : Reg2)
    (A B uA uB : String) (mA : ComponentModule) (e : String)
    (A2 B2 jA sA jB sB : String) (mA2 : ComponentModule) (e2 : String)
    (hAB : A ≠ B) (hA : A ∈ reg.keys) (hB : B ∈ reg.keys)
    (hgA : reg.getURL A = some uA) (huA : uA ≠ "")
    (hsA : Bh.addStylingResult uA = Except.ok ())
    (himA : Bh.importModuleResult (uA ++ "/js") = Except.ok mA)
    (hmt : mA.hasMount = true) (hie : mA.initErr = none)
    (hme : mA.mountErr = none)
    (hgB : reg.getURL B = some uB) (huB : uB ≠ "")
    (himB : Bh.importModuleResult (uB ++ "/js") = Except.error e)
    (hAB2 : A2 ≠ B2) (hA2 : A2 ∈ reg2.keys) (hB2 : B2 ∈ reg2.keys)
    (hgA2 : reg2.getURL A2 = some { js := some jA, css := some sA })
    (hjA : jA ≠ "") (hsA2 : sA ≠ "")
    (hstyA2 : Bh.addStylingResult sA = Except.ok ())
    (hmodA2 : Bh.createModuleScriptResult jA = Except.ok mA2)
    (hmt2 : mA2.hasMount = true) (hie2 : mA2.initErr = none)
    (hgB2 : reg2.getURL B2 = some { js := some jB, css := some sB })
    (hjB : jB ≠ "") (hsB2 : sB ≠ "")
    (hmodB2 : Bh.createModuleScriptResult jB = Except.error e2) :
    (loadAll1 Bh reg).2 = Except.ok () ∧
    Event.invokeMount mA ∈ (loadAll1 Bh reg).1 ∧
    (mA.hasInit = true → Event.invokeInit mA ∈ (loadAll1 Bh reg).1) ∧
    (∀ c ∈ reg.keys, Event.loadStart c ∈ (loadAll1 Bh reg).1) ∧
    (loadAll2 Bh reg2).2 = Except.ok () ∧
    Event.invokeMount mA2 ∈ (loadAll2 Bh reg2).1 ∧
    (mA2.hasInit = true → Event.invokeInit mA2 ∈ (loadAll2 Bh reg2).1) ∧
    (∀ c ∈ reg2.keys, Event.loadStart c ∈ (loadAll2 Bh reg2).1) := by
  obtain ⟨hmem, hmemInit, hout⟩ := execLM_complete mA hmt hie
  have hload : (load1 Bh reg A).1 = Event.loadStart A :: Event.addStyling uA ::
      Event.importModule (uA ++ "/js") :: (executeLifecycleMethods mA).1 :=
    (load1_ok_traces Bh reg A uA mA hgA huA hsA himA).1 (hout hme)
  have hInAll : ∀ ev, ev ∈ (load1 Bh reg A).1 → ev ∈ (loadAll1 Bh reg).1 := by
    intro ev hev
    unfold loadAll1
    exact List.mem_append_right _
      (mem_batchTrace (fun c => load1 Bh reg c) reg.keys A hA ev hev)
  obtain ⟨hmem2, hmemInit2, -⟩ := execLM_complete mA2 hmt2 hie2
  have hload2 : (load2 Bh reg2 A2).1 = Event.loadStart A2 ::
      Event.addStyling sA :: Event.createModuleScript jA ::
      (executeLifecycleMethods mA2).1 := by
    rw [load2_valid Bh reg2 A2 { js := some jA, css := some sA } jA sA hgA2
      rfl hjA rfl hsA2]
    rw [loadComponent2_moduleOk Bh jA sA A2 mA2 hstyA2 hmodA2]
  have hInAll2 : ∀ ev, ev ∈ (load2 Bh reg2 A2).1 →
      ev ∈ (loadAll2 Bh reg2).1 := by
    intro ev hev
    unfold loadAll2
    exact mem_batchTrace _ reg2.keys A2 hA2 ev (catchLog_mem _ _ ev hev)
  refine ⟨(loadAll1_quiet Bh reg).2.2.2,
    hInAll _ (by rw [hload]; simp [hmem]),
    fun hinit => hInAll _ (by rw [hload]; simp [hmemInit hinit]),
    fun c hc => ?_, loadAll2_ok Bh reg2,
    hInAll2 _ (by rw [hload2]; simp [hmem2]),
    fun hinit => hInAll2 _ (by rw [hload2]; simp [hmemInit2 hinit]),
    fun c hc => ?_⟩
  · obtain ⟨t, ht, -⟩ := load1_shape Bh reg c
    unfold loadAll1
    exact List.mem_append_right _
      (mem_batchTrace (fun c' => load1 Bh reg c') reg.keys c hc _
        (by rw [ht]; simp))
  · obtain ⟨t, ht, -⟩ := load2_shape Bh reg2 c
    unfold loadAll2
    exact mem_batchTrace _ reg2.keys c hc _
      (catchLog_mem _ _ _ (by rw [ht]; simp))

/-- Witness for C5: in both variants, component A succeeds while the module
resolution of component B rejects. -/
theorem claim_C5_witness :
    (loadAll1 bMix fixtureReg1).2 = Except.ok () ∧
    Event.invokeMount mBoth ∈ (loadAll1 bMix fixtureReg1).1 ∧
    (mBoth.hasInit = true →
      Event.invokeInit mBoth ∈ (loadAll1 bMix fixtureReg1).1) ∧
    (∀ c ∈ fixtureReg1.keys,
      Event.loadStart c ∈ (loadAll1 bMix fixtureReg1).1) ∧
    (loadAll2 bMix fixtureReg2AB).2 = Except.ok () ∧
    Event.invokeMount mBoth ∈ (loadAll2 bMix fixtureReg2AB).1 ∧
    (mBoth.hasInit = true →
      Event.invokeInit mBoth ∈ (loadAll2 bMix fixtureReg2AB).1) ∧
    (∀ c ∈ fixtureReg2AB.keys,
      Event.loadStart c ∈ (loadAll2 bMix fixtureReg2AB).1) :=
  claim_C5 bMix fixtureReg1 fixtureReg2AB "A" "B" "urlA" "urlB" mBoth
    "module-rejection" "A" "B" "a.js" "a.css" "b.js" "b.css" mBoth
    "module-rejection"
    (by decide) (by decide) (by decide) rfl (by decide) rfl rfl rfl rfl rfl
    rfl (by decide) rfl
    (by decide) (by decide) (by decide) rfl (by decide) (by decide) rfl rfl
    rfl rfl rfl (by decide) (by decide) rfl

/-- Counterexample to C1 as stated: in the second source variant
`addStyling` is called outside the `try` block, so a synchronous styling
throw propagates out of `load` as a rejection to its caller. -/
theorem claim_C1_counterexample :
    (load2 bStyleThrow fixtureReg2 "A").2 = Except.error "styling-throw" := rfl

/-- Claim C1 (amended): in variant 1, `load` always resolves and each of
the three caught failure kinds — styling throw, module rejection, lifecycle
rejection — is logged with the component name; in both variants `loadAll`
always resolves, so no component failure ever rejects to the caller of
`loadAll`/`init`; in variant 2, `load` resolves whenever styling does not
throw, and a lifecycle rejection is neither caught, logged, nor
propagated. -/
theorem claim_C1_amended :
    (∀ (Bh : Behavior) (reg : Reg1) (c : String),
      (load1 Bh reg c).2 = Except.ok ()) ∧
    (∀ (Bh : Behavior) (reg : Reg1), (loadAll1 Bh reg).2 = Except.ok ()) ∧
    (∀ (Bh : Behavior) (reg : Reg2), (loadAll2 Bh reg).2 = Except.ok ()) ∧
    (∀ (Bh : Behavior) (reg : Reg1) (c url e : String),
      reg.getURL c = some url → url ≠ "" →
      Bh.addStylingResult url = Except.ok () →
      Bh.importModuleResult (url ++ "/js") = Except.error e →
      Event.logError ("Error when mounting component " ++ c ++ " using SystemJS")
        ∈ (load1 Bh reg c).1) ∧
    (∀ (Bh : Behavior) (reg : Reg1) (c url e : String),
      reg.getURL c = some url → url ≠ "" →
      Bh.addStylingResult url = Except.error e →
      Event.logError ("Error when mounting component " ++ c ++ " using SystemJS")
        ∈ (load1 Bh reg c).1) ∧
    (∀ (Bh : Behavior) (reg : Reg1) (c url e : String) (m : ComponentModule),
      reg.getURL c = some url → url ≠ "" →
      Bh.addStylingResult url = Except.ok () →
      Bh.importModuleResult (url ++ "/js") = Except.ok m →
      (executeLifecycleMethods m).2 = Except.error e →
      Event.logError ("Error when mounting component " ++ c ++ " using SystemJS")
        ∈ (load1 Bh reg c).1) ∧
    (∀ (Bh : Behavior) (reg : Reg2) (c : String),
      (∀ u, Bh.addStylingResult u = Except.ok ()) →
      (load2 Bh reg c).2 = Except.ok ()) ∧
    (∀ (Bh : Behavior) (reg : Reg2) (c : String) (info : UrlInfo)
      (j s : String) (m : ComponentModule),
      reg.getURL c = some info → info.js = some j → j ≠ "" →
      info.css = some s → s ≠ "" →
      Bh.addStylingResult s = Except.ok () →
      Bh.createModuleScriptResult j = Except.ok m →
      (load2 Bh reg c).2 = Except.ok () ∧
      ∀ msg, Event.logError msg ∉ (load2 Bh reg c).1) := by
  refine ⟨load1_ok, fun Bh reg => (loadAll1_quiet Bh reg).2.2.2, loadAll2_ok,
    ?_, ?_, ?_, ?_, ?_⟩
  · intro Bh reg c url e hg hu hs him
    simp [load1, hg, hu, hs, him]
  · intro Bh reg c url e hg hu hs
    simp [load1, hg, hu, hs]
  · intro Bh reg c url e m hg hu hs him hl
    rw [(load1_ok_traces Bh reg c url m hg hu hs him).2 e hl]
    simp
  · intro Bh reg c hstyle
    unfold load2
    cases hg : reg.getURL c
    · simp
    case some info =>
      by_cases hv : (falsyOpt info.js || falsyOpt info.css) = true
      · simp [hv]
      · simp only [hv, Bool.false_eq_true, if_false, if_neg]
        unfold loadComponent2
        rw [hstyle (info.css.getD "")]
        cases hm : Bh.createModuleScriptResult (info.js.getD "") <;> simp
  · intro Bh reg c info j s m hg hj hj2 hcs hs2 hsty hm
    rw [load2_valid Bh reg c info j s hg hj hj2 hcs hs2,
      loadComponent2_moduleOk Bh j s c m hsty hm]
    obtain ⟨-, -, -, -, -, -, -, q8⟩ := execLM_quiet m
    refine ⟨rfl, fun msg => ?_⟩
    intro hmem
    simp at hmem
    exact q8 msg hmem

/-- Witness for the amended C1 at concrete inputs. -/
theorem claim_C1_amended_witness :
    (load1 bOk fixtureReg1 "A").2 = Except.ok () ∧
    (load2 bOk fixtureReg2 "A").2 = Except.ok () :=
  ⟨claim_C1_amended.1 bOk fixtureReg1 "A",
   (claim_C1_amended.2.2.2.2.2.2.2 bOk fixtureReg2 "A"
      { js := some "a.js", css := some "a.css" } "a.js" "a.css" mBoth
      rfl rfl (by decide) rfl (by decide) rfl rfl).1⟩

/-- Counterexample to C2 as stated: at a concrete valid `init` call whose
persisted storage holds a value under the reserved override key, neither
variant reads any storage key, and exactly one override layer (the
caller-supplied one) is applied — no persisted-local second patch exists. -/
theorem claim_C2_counterexample :
    stPersisted "ef-overrides" = some "persisted-override-payload" ∧
    readsStorage (init1 bOk fixtureReg1 stPersisted opts1Fix).1 = false ∧
    applyCount (init1 bOk fixtureReg1 stPersisted opts1Fix).1 = 1 ∧
    readsStorage (init2 bOk fixtureReg2 stPersisted opts2Fix).1 = false ∧
    applyCount (init2 bOk fixtureReg2 stPersisted opts2Fix).1 = 1 :=
  ⟨rfl, rfl, rfl, rfl, rfl⟩

/-- Claim C2 (amended): for every valid `init` call whose fetch succeeds,
only the caller-supplied override layer is applied — exactly one patch when
overrides are passed, none otherwise — after the fetch and before any
component load; no persisted storage key is ever read and the storage
contents never influence the result. -/
theorem claim_C2_amended (Bh : Behavior) (reg1 : Reg1) (reg2 : Reg2)
    (st st' : Store) (o1 : InitOptions1) (o2 : InitOptions2) (sc : String)
    (h1 : o1.systemCode = some sc) (h2 : o2.systemCode = some sc)
    (hsc : sc ≠ "") (hml : Bh.moduleLoaderInitResult = Except.ok ())
    (hf : Bh.fetchResult sc = Except.ok ()) :
    readsStorage (init1 Bh reg1 st o1).1 = false ∧
    applyCount (init1 Bh reg1 st o1).1 =
      (if o1.overrides.isSome then 1 else 0) ∧
    (o1.overrides.isSome = true → (init1 Bh reg1 st o1).1.take 3 =
      [Event.moduleLoaderInit, Event.registryFetch sc, Event.applyOverrides]) ∧
    init1 Bh reg1 st o1 = init1 Bh reg1 st' o1 ∧
    readsStorage (init2 Bh reg2 st o2).1 = false ∧
    applyCount (init2 Bh reg2 st o2).1 =
      (if o2.overrides.isSome then 1 else 0) ∧
    (o2.overrides.isSome = true → (init2 Bh reg2 st o2).1.take 2 =
      [Event.registryFetch sc, Event.applyOverrides]) ∧
    init2 Bh reg2 st o2 = init2 Bh reg2 st' o2 := by
  have he1 := init1_ok_eq Bh reg1 st o1 sc h1 hsc hml hf
  have he2 := init2_ok_eq Bh reg2 st o2 sc h2 hsc hf
  obtain ⟨a1, a2, a3, -⟩ := loadAll1_quiet Bh reg1
  obtain ⟨b1, b2, b3⟩ := loadAll2_quiet Bh reg2
  refine ⟨?_, ?_, fun ho => ?_, rfl, ?_, ?_, fun ho => ?_, rfl⟩
  · rw [he1]
    unfold readsStorage at a3 ⊢
    cases ho : o1.overrides.isSome <;> simp [List.any_append, a3]
  · rw [he1]
    unfold applyCount at a2 ⊢
    cases ho : o1.overrides.isSome <;>
      simp [List.countP_cons, List.countP_append, a2, ho]
  · rw [he1, ho]
    simp
  · rw [he2]
    unfold readsStorage at b3 ⊢
    cases ho : o2.overrides.isSome <;> simp [List.any_append, b3]
  · rw [he2]
    unfold applyCount at b2 ⊢
    cases ho : o2.overrides.isSome <;>
      simp [List.countP_cons, List.countP_append, b2, ho]
  · rw [he2, ho]
    simp

/-- Witness for the amended C2 at concrete inputs with populated persisted
storage. -/
theorem claim_C2_amended_witness :
    readsStorage (init1 bOk fixtureReg1 stPersisted opts1Fix).1 = false ∧
    (init1 bOk fixtureReg1 stPersisted opts1Fix).1.take 3 =
      [Event.moduleLoaderInit, Event.registryFetch "sys",
        Event.applyOverrides] :=
  ⟨(claim_C2_amended bOk fixtureReg1 fixtureReg2 stPersisted st0 opts1Fix
      opts2Fix "sys" rfl rfl (by decide) rfl rfl).1,
   (claim_C2_amended bOk fixtureReg1 fixtureReg2 stPersisted st0 opts1Fix
      opts2Fix "sys" rfl rfl (by decide) rfl rfl).2.2.1 rfl⟩
